import Mathlib

/-!
Verification of the Instagram MCP server's token lifecycle, credential
resolution, polling and tool-envelope logic.

The Python sources are shallowly embedded:
* JSON token-store dictionaries become `Store := String → Option Val`,
  where `Val` mirrors the JSON scalar values the code stores
  (strings, numbers, and Python `None`).
* `os.environ` lookups become `Option String` parameters.
* HTTP calls become oracle parameters (`Option`/`Except`-valued functions)
  supplied to each operation.
* Python truthiness is modelled explicitly (`Val.truthy`, `optTruthy`).
* `time.time()` becomes an explicit `Int` parameter `now` (seconds).

Two parallel implementations exist in the repository for several
operations (`client.py` methods and module-level functions in
`instagram_mcp_server.py`); both are embedded, with `client…` and
`server…` name prefixes.
-/

/-- Scalar JSON values stored in the token file: strings, numbers
(timestamps/expiries; Python floats are modelled as integer seconds) and
Python `None` (a key present with a null value). -/
inductive Val where
  | str (s : String)
  | num (n : Int)
  | null
deriving DecidableEq, Repr

/-- Python truthiness of a stored value: non-empty strings and non-zero
numbers are truthy, `None` is falsy. -/
def Val.truthy : Val → Bool
  | .str s => s ≠ ""
  | .num n => n ≠ 0
  | .null => false

/-- A token-store dictionary: a partial map from field names to values.
`none` models an absent key. -/
def Store : Type := String → Option Val

/-- The empty dictionary (`{}`). -/
def Store.empty : Store := fun _ => none

/-- Build a dictionary from an association list (later entries shadowed by
earlier ones are not used in this development; keys are distinct). -/
def Store.ofList (l : List (String × Val)) : Store :=
  fun k => (l.find? (fun p => p.1 == k)).map (fun p => p.2)

/-- Python `dict.update`: keys of `tokens` overwrite, all other keys of
`existing` are retained. -/
def Store.update (existing tokens : Store) : Store :=
  fun k => match tokens k with
    | some v => some v
    | none => existing k

/-- Python `d.get(k)` followed by a truthiness test, as in
`stored_tokens.get("refresh_token") or …`: returns the value only when it
is present and truthy. -/
def Store.getTruthy (st : Store) (k : String) : Option Val :=
  match st k with
  | some v => if v.truthy then some v else none
  | none => none

/-- Numeric read of a store field. A non-numeric value is treated as
missing (the Python code would raise `TypeError` on such a store; no such
store is ever produced by the code itself, which only writes numbers at
the numeric keys). -/
def Store.getNum (st : Store) (k : String) : Option Int :=
  match st k with
  | some (.num n) => some n
  | _ => none

/-- Truthiness of an optional string (an `os.getenv` result): present and
non-empty. -/
def optTruthy : Option String → Bool
  | some s => s ≠ ""
  | none => false

/-- Python `o or default` on an optional string: the string if truthy,
otherwise `none`. -/
def envToken (o : Option String) : Option String :=
  match o with
  | some s => if s = "" then none else some s
  | none => none

/-- Server `_save_tokens` (instagram_mcp_server.py lines 108-141): load the
existing record, `dict.update` with the patch, and — only when the patch
contains `access_token` — stamp `access_token_saved_at` with the current
time (the re-assignments of `access_token`, `expires_in`, `refresh_token`
in the source are no-ops after the `update`).  The environment-variable
mirroring side effect is outside the store and not modelled here. -/
def serverSaveTokens (existing patch : Store) (now : Int) : Store :=
  let merged := Store.update existing patch
  if (patch "access_token").isSome then
    fun k => if k = "access_token_saved_at" then some (.num now) else merged k
  else
    merged

/-- Client `_save_tokens` (client.py lines 50-60): load the existing
record, `dict.update` with the patch, and stamp `access_token_saved_at`
with the current time unconditionally. -/
def clientSaveTokens (existing patch : Store) (now : Int) : Store :=
  let merged := Store.update existing patch
  fun k => if k = "access_token_saved_at" then some (.num now) else merged k

/-- Client `_is_token_expired` core (client.py lines 62-75), over the two
numeric fields read from the store: if either `expires_in` or
`access_token_saved_at` is falsy (missing or zero), the token is treated
as non-expiring; otherwise expired iff
`now >= saved_at + expires_in - 300`. -/
def clientIsExpired (expiresIn savedAt : Option Int) (now : Int) : Bool :=
  match expiresIn, savedAt with
  | some e, some t =>
      if e = 0 ∨ t = 0 then false
      else decide (now ≥ t + e - 300)
  | _, _ => false

/-- Client `_is_token_expired` over a store state. -/
def clientIsExpiredStore (st : Store) (now : Int) : Bool :=
  clientIsExpired (st.getNum "expires_in") (st.getNum "access_token_saved_at") now

/-- Server `_is_token_expired` core (instagram_mcp_server.py lines
143-156): if either key is absent (a key-presence check, not a truthiness
check) the token is treated as valid; otherwise expired iff
`(saved_at + expires_in) - now < 86400` (refresh one day early). -/
def serverIsExpired (expiresIn savedAt : Option Int) (now : Int) : Bool :=
  match expiresIn, savedAt with
  | some e, some t => decide (t + e - now < 86400)
  | _, _ => false

/-- Server `_is_token_expired` over a store state. -/
def serverIsExpiredStore (st : Store) (now : Int) : Bool :=
  serverIsExpired (st.getNum "expires_in") (st.getNum "access_token_saved_at") now

/-- The JSON body of a successful OAuth token-endpoint response, as the
code consumes it: the three fields it reads. -/
structure TokenData where
  access_token : Option String
  expires_in : Option Int
  refresh_token : Option String
deriving DecidableEq, Repr

/-- The page/instagram identity triple returned by
`_get_page_access_token_from_user_token`.  Fields are optional because the
code builds them with `dict.get`, so any of them may be Python `None`. -/
structure PageTriple where
  page_id : Option String
  page_access_token : Option String
  instagram_user_id : Option String
deriving DecidableEq, Repr

/-- Client `_refresh_token` (client.py lines 77-112).  `cfgCreds` is the
truthiness of both `settings.oauth2_client_id` and
`settings.oauth2_client_secret`; `http rt` is the outcome of the
`fb_exchange_token` HTTP call with exchange credential `rt` (`none` models
a transport error or non-2xx status, all swallowed by the bare `except`).
Returns the Python return value (`token_data["access_token"]`, which the
code returns even when it is the empty string) and the resulting store. -/
def clientRefreshToken (cfgCreds : Bool) (st : Store)
    (http : Val → Option TokenData) (rt : Val) (now : Int) :
    Option String × Store :=
  if !cfgCreds then (none, st)
  else
    match http rt with
    | none => (none, st)
    | some td =>
      match td.access_token with
      | none => (none, st)
      | some a =>
        let patch : Store := fun k =>
          if k = "access_token" then some (.str a)
          else if k = "expires_in" then some (.num (td.expires_in.getD 5184000))
          else if k = "refresh_token" then st.getTruthy "refresh_token"
          else none
        (some a, clientSaveTokens st patch now)

/-- Server `_refresh_oauth2_token` (instagram_mcp_server.py lines
307-367).  `clientId`/`clientSecret` are the `OAUTH2_CLIENT_ID` /
`OAUTH2_CLIENT_SECRET` environment variables; `pageLookup tok` is the
outcome of the nested `_get_page_access_token_from_user_token` call (which
never raises).  When the page lookup yields a triple, its
`page_access_token`/`facebook_page_id` fields are written into the patch
even when they are Python `None` (stored as `Val.null`). -/
def serverRefreshOauthToken (clientId clientSecret : Option String)
    (st : Store) (http : Val → Option TokenData)
    (pageLookup : String → Option PageTriple) (rt : Val) (now : Int) :
    Option String × Store :=
  if !(optTruthy clientId && optTruthy clientSecret) then (none, st)
  else
    match http rt with
    | none => (none, st)
    | some td =>
      match td.access_token with
      | none => (none, st)
      | some a =>
        let refreshField : Option Val :=
          match td.refresh_token with
          | some r => some (.str r)
          | none => st.getTruthy "refresh_token"
        let pagePart : Option PageTriple := pageLookup a
        let patch : Store := fun k =>
          if k = "access_token" then some (.str a)
          else if k = "expires_in" then td.expires_in.map Val.num
          else if k = "refresh_token" then refreshField
          else if k = "page_access_token" then
            pagePart.map (fun p => (p.page_access_token.map Val.str).getD .null)
          else if k = "facebook_page_id" then
            pagePart.map (fun p => (p.page_id.map Val.str).getD .null)
          else none
        (some a, serverSaveTokens st patch now)

/-- Credentials dictionary returned by a token-provider callback; the code
only reads its `access_token` entry. -/
structure ProviderCreds where
  access_token : Option String
deriving DecidableEq, Repr

/-- Outcome of invoking a registered token-provider callback: it either
raises, or returns a value (Python `None` or a credentials dict). -/
inductive ProviderOutcome where
  | raises
  | returns (creds : Option ProviderCreds)
deriving DecidableEq, Repr

/-- The token a provider callback contributes, per the guard
`if creds and creds.get("access_token")` in client.py lines 117-123: the
callback must be registered, not raise, return a truthy value, and that
value's `access_token` must be truthy.  A raising callback contributes
nothing (the exception is caught). -/
def providerToken : Option ProviderOutcome → Option String
  | some (.returns (some c)) =>
      match c.access_token with
      | some s => if s = "" then none else some s
      | none => none
  | _ => none

/-- Inputs to client `get_access_token` (client.py lines 114-148): the
optional provider callback, the two environment token variables, the
persisted store, the OAuth2 client configuration, the refresh HTTP oracle
and the current time. -/
structure ClientEnv where
  provider : Option ProviderOutcome
  envAccess : Option String
  envOauth : Option String
  store : Store
  cfgCreds : Bool
  http : Val → Option TokenData
  now : Int

/-- Result of one credential resolution: the returned token (or the
raised error message), the store state afterwards, and the list of
exchange credentials passed to the refresh routine (instrumentation used
to state refresh-attempt claims). -/
structure ResolveOut where
  result : Except String Val
  store : Store
  attempts : List Val

/-- The store branch of client `get_access_token` (client.py lines
130-141): `none` when the store holds no truthy `access_token`; otherwise
the token returned from this branch together with the post-state.  When
the stored token is expired the exchange credential is the truthy stored
`refresh_token`, falling back to the stored access token itself, and a
falsy refresh result falls back to the stale stored token. -/
def clientStorePath (e : ClientEnv) : Option ResolveOut :=
  match e.store.getTruthy "access_token" with
  | none => none
  | some a =>
    if clientIsExpiredStore e.store e.now then
      let rt := (e.store.getTruthy "refresh_token").getD a
      match clientRefreshToken e.cfgCreds e.store e.http rt e.now with
      | (some nt, st') =>
          if nt = "" then some ⟨.ok a, st', [rt]⟩
          else some ⟨.ok (.str nt), st', [rt]⟩
      | (none, st') => some ⟨.ok a, st', [rt]⟩
    else some ⟨.ok a, e.store, []⟩

/-- The error message raised by client `get_access_token` when no source
yields a token; it names the setup step to run. -/
def clientNoTokenMsg : String :=
  "Missing access token. Run: uv run instagram-mcp/oauth_setup.py"

/-- Client `get_access_token` (client.py lines 114-148), translated
statement by statement: provider callback, then direct environment token,
then the store branch, then the legacy OAuth environment token, then
raise. -/
def clientResolve (e : ClientEnv) : ResolveOut :=
  match providerToken e.provider with
  | some s => ⟨.ok (.str s), e.store, []⟩
  | none =>
    match envToken e.envAccess with
    | some s => ⟨.ok (.str s), e.store, []⟩
    | none =>
      match clientStorePath e with
      | some out => out
      | none =>
        match envToken e.envOauth with
        | some s => ⟨.ok (.str s), e.store, []⟩
        | none => ⟨.error clientNoTokenMsg, e.store, []⟩

/-- The four credential sources of §4.2 of the specification, in their
stated precedence order, each yielding `none` when unavailable. -/
def specSources (e : ClientEnv) : List (Option ResolveOut) :=
  [ (providerToken e.provider).map (fun s => ⟨.ok (.str s), e.store, []⟩),
    (envToken e.envAccess).map (fun s => ⟨.ok (.str s), e.store, []⟩),
    clientStorePath e,
    (envToken e.envOauth).map (fun s => ⟨.ok (.str s), e.store, []⟩) ]

/-- Resolution as the specification words it: the token from the
highest-precedence available source in the fixed order provider, direct
environment, store (with refresh), legacy environment, and an actionable
error exactly when no source yields a token. -/
def specClientResolve (e : ClientEnv) : ResolveOut :=
  ((specSources e).findSome? id).getD ⟨.error clientNoTokenMsg, e.store, []⟩

/-- Inputs to server `get_access_token` (instagram_mcp_server.py lines
34-78): the three token environment variables, the OAuth2 client
configuration variables, the store, the refresh HTTP oracle, the page
lookup oracle, and the current time. -/
structure ServerEnv where
  envAccess : Option String
  envOauth : Option String
  envOauthRefresh : Option String
  clientId : Option String
  clientSecret : Option String
  store : Store
  http : Val → Option TokenData
  pageLookup : String → Option PageTriple
  now : Int

/-- Server `_is_oauth2_enabled` (lines 160-162). -/
def ServerEnv.oauth2Enabled (e : ServerEnv) : Bool :=
  optTruthy e.clientId && optTruthy e.clientSecret

/-- Server `get_access_token` (instagram_mcp_server.py lines 34-78):
direct environment token, then the store branch (whose exchange
credential is the stored `refresh_token` falling back to the
`INSTAGRAM_OAUTH_REFRESH_TOKEN` environment variable, attempted only when
OAuth2 is configured), then the legacy OAuth environment token, then an
environment-refresh-token exchange (again only when OAuth2 is configured),
then raise. -/
def serverResolve (e : ServerEnv) : ResolveOut :=
  match envToken e.envAccess with
  | some s => ⟨.ok (.str s), e.store, []⟩
  | none =>
    match e.store.getTruthy "access_token" with
    | some a =>
      if serverIsExpiredStore e.store e.now then
        let rtOpt : Option Val :=
          match e.store.getTruthy "refresh_token" with
          | some v => some v
          | none => (envToken e.envOauthRefresh).map Val.str
        match rtOpt with
        | some rt =>
          if e.oauth2Enabled then
            match serverRefreshOauthToken e.clientId e.clientSecret e.store
                e.http e.pageLookup rt e.now with
            | (some nt, st') =>
                if nt = "" then ⟨.ok a, st', [rt]⟩
                else ⟨.ok (.str nt), st', [rt]⟩
            | (none, st') => ⟨.ok a, st', [rt]⟩
          else ⟨.ok a, e.store, []⟩
        | none => ⟨.ok a, e.store, []⟩
      else ⟨.ok a, e.store, []⟩
    | none =>
      match envToken e.envOauth with
      | some s => ⟨.ok (.str s), e.store, []⟩
      | none =>
        let failMsg := "Missing required access token. Set INSTAGRAM_ACCESS_TOKEN or configure OAuth2."
        if e.oauth2Enabled then
          match envToken e.envOauthRefresh with
          | some rts =>
            match serverRefreshOauthToken e.clientId e.clientSecret e.store
                e.http e.pageLookup (.str rts) e.now with
            | (some nt, st') =>
                if nt = "" then ⟨.error failMsg, st', [.str rts]⟩
                else ⟨.ok (.str nt), st', [.str rts]⟩
            | (none, st') => ⟨.error failMsg, st', [.str rts]⟩
          | none => ⟨.error failMsg, e.store, []⟩
        else ⟨.error failMsg, e.store, []⟩

/-- Server `_exchange_oauth2_code` (instagram_mcp_server.py lines
196-305).  `firstHttp` is the outcome of the authorization-code POST
(`.error msg` models a `RequestException`, whose extracted message is
`msg`); `secondHttp s` is the outcome of the long-lived
`fb_exchange_token` GET for short-lived token `s` (`none` models any
exception inside the long-lived block).  Returns the `token_data`
dictionary the function returns together with the resulting store; the
`.error` result models the re-raised `Failed to exchange OAuth2 code`
exception.  Environment mirroring is outside the store and not
modelled. -/
def exchangeOauth2Code (clientId clientSecret : Option String) (st : Store)
    (firstHttp : Except String TokenData)
    (secondHttp : String → Option TokenData)
    (pageLookup : String → Option PageTriple) (now : Int) :
    Except String (TokenData × Store) :=
  if !(optTruthy clientId && optTruthy clientSecret) then
    .error "OAUTH2_CLIENT_ID and OAUTH2_CLIENT_SECRET are required"
  else
    match firstHttp with
    | .error m => .error ("Failed to exchange OAuth2 code: " ++ m)
    | .ok td0 =>
      let td1 : TokenData :=
        match td0.access_token with
        | some s =>
          if s = "" then td0
          else
            match secondHttp s with
            | some ld =>
              { td0 with
                access_token :=
                  match ld.access_token with
                  | some a => some a
                  | none => td0.access_token,
                expires_in :=
                  match ld.expires_in with
                  | some x => some x
                  | none => some 5184000 }
            | none =>
              if td0.expires_in.isSome then td0
              else { td0 with expires_in := some 3600 }
        | none => td0
      let tokenPatch : Store := fun k =>
        if k = "access_token" then td1.access_token.map Val.str
        else if k = "refresh_token" then td1.refresh_token.map Val.str
        else if k = "expires_in" then td1.expires_in.map Val.num
        else none
      let anyToSave :=
        td1.access_token.isSome || td1.refresh_token.isSome || td1.expires_in.isSome
      let st1 := if anyToSave then serverSaveTokens st tokenPatch now else st
      let st2 :=
        match td1.access_token with
        | some a =>
          match pageLookup a with
          | some p =>
            let fullPatch : Store := fun k =>
              if k = "page_access_token" then
                some ((p.page_access_token.map Val.str).getD .null)
              else if k = "facebook_page_id" then
                some ((p.page_id.map Val.str).getD .null)
              else tokenPatch k
            serverSaveTokens st1 fullPatch now
          | none => st1
        | none => st1
      .ok (td1, st2)

/-- A page object from the `me/accounts` listing, with the three fields
the code reads.  `instagram_business_account` is `none` when the key is
absent (or the value falsy-empty); a present account whose `id` is absent
is `some ⟨none⟩`. -/
structure FBPage where
  id : Option String
  access_token : Option String
  instagram_business_account : Option (Option String)
deriving DecidableEq, Repr

/-- The guard `if ig_account and ig_account.get("id")` of
instagram_mcp_server.py lines 502-504: a connected account with a truthy
id. -/
def FBPage.connected (p : FBPage) : Bool :=
  match p.instagram_business_account with
  | some (some i) => i ≠ ""
  | _ => false

/-- Server `_get_page_access_token_from_user_token`
(instagram_mcp_server.py lines 482-522).  `resp` is the page-listing
request outcome: `.error` models any raised exception (caught, logged,
`None` returned); `.ok none` models a response body without a `data` key
(defaulted to the empty list); `.ok (some pages)` the returned list. -/
def getPageAccessTokenFromUserToken
    (resp : Except String (Option (List FBPage))) : Option PageTriple :=
  match resp with
  | .error _ => none
  | .ok dataOpt =>
    let pages := dataOpt.getD []
    if pages.isEmpty then none
    else
      match pages.find? FBPage.connected with
      | some p =>
        some ⟨p.id, p.access_token, p.instagram_business_account.getD none⟩
      | none =>
        match pages.head? with
        | some p0 => some ⟨p0.id, p0.access_token, none⟩
        | none => none

/-- On-disk states of the token file distinguished by `_load_tokens`:
absent; present but unreadable (`open`/read raising `IOError`); present
with bytes that are not valid UTF-8, so that the text-mode read inside
`json.load` raises `UnicodeDecodeError`; or present with bytes decoding
to the text `s`. -/
inductive FileState where
  | missing
  | unreadable
  | undecodable
  | text (s : String)

/-- The exception classes the body of `_load_tokens` can raise, as the
two implementations' `except` clauses distinguish them: `IOError` from
`open`/read, `UnicodeDecodeError` (a `ValueError` that is neither
`IOError` nor `json.JSONDecodeError`) from decoding the bytes, and
`json.JSONDecodeError` from parsing the decoded text. -/
inductive LoadErr where
  | ioError
  | unicodeDecodeError
  | jsonDecodeError
deriving DecidableEq, Repr

/-- Server `_load_tokens` (instagram_mcp_server.py lines 96-106): an
absent file returns `{}` before any read; the
`except (json.JSONDecodeError, IOError)` clause converts a read error or
unparseable text to `{}`; but a file of invalid UTF-8 bytes raises
`UnicodeDecodeError`, which that clause does not catch, so the exception
escapes to the caller.  `parse` is the JSON parser, `none` modelling a
`JSONDecodeError`. -/
def serverLoadTokens (fs : FileState) (parse : String → Option Store) :
    Except LoadErr Store :=
  match fs with
  | .missing => .ok Store.empty
  | .unreadable => .ok Store.empty
  | .undecodable => .error .unicodeDecodeError
  | .text s =>
    match parse s with
    | some st => .ok st
    | none => .ok Store.empty

/-- Client `_load_tokens` (client.py lines 39-48): its bare
`except Exception` clause catches every failure the body can raise —
read errors, undecodable bytes and unparseable text alike — so every
abnormal state yields `{}` and nothing escapes (the model is total). -/
def clientLoadTokens (fs : FileState) (parse : String → Option Store) :
    Store :=
  match fs with
  | .missing => Store.empty
  | .unreadable => Store.empty
  | .undecodable => Store.empty
  | .text s => (parse s).getD Store.empty

/-- JSON values exchanged with the Graph API. -/
inductive JVal where
  | obj (fields : List (String × JVal))
  | arr (elems : List JVal)
  | str (s : String)
  | num (n : Int)
  | bool (b : Bool)
  | null
deriving Repr

/-- Python `d.get(k)` on a JSON object; `none` on a missing key or a
non-object. -/
def JVal.get (j : JVal) (k : String) : Option JVal :=
  match j with
  | .obj fs => (fs.find? (fun p => p.1 == k)).map (fun p => p.2)
  | _ => none

/-- Python truthiness of a JSON value (`if not conversations_data:` and
similar guards). -/
def JVal.falsy : JVal → Bool
  | .obj fs => fs.isEmpty
  | .arr es => es.isEmpty
  | .str s => s = ""
  | .num n => n = 0
  | .bool b => !b
  | .null => true

/-- A Python exception crossing a tool boundary: `requests` timeouts are
distinguished because some tools catch them separately; `msg` is
`str(e)`, which may be empty. -/
inductive PyErr where
  | timeout (msg : String)
  | exc (msg : String)
deriving DecidableEq, Repr

/-- The `str(e)` text of an exception. -/
def PyErr.msg : PyErr → String
  | .timeout m => m
  | .exc m => m

/-- The result envelope every tool returns.  `paging`/`message` model the
presence of the respective dictionary keys (`none` = key absent); the
documented envelope has no `message` key. -/
structure Envelope where
  data : JVal
  paging : Option JVal
  message : Option String
  error : String
  successful : Bool

/-- The failure envelope `{"data": {}, "error": msg, "successful":
False}` shared by most tools. -/
def failEnv (msg : String) : Envelope := ⟨.obj [], none, none, msg, false⟩

/-- The success envelope `{"data": result, "error": "", "successful":
True}`. -/
def okEnv (result : JVal) : Envelope := ⟨result, none, none, "", true⟩

/-- Python `"pat" in s.lower()`: case-insensitive substring test, via
`splitOn` (the pattern occurs iff splitting on it produces more than one
piece). -/
def strContainsLower (s pat : String) : Bool :=
  (s.toLower.splitOn pat).length > 1

/-- The head of `_get_instagram_user_id` (instagram_mcp_server.py lines
422-430): a truthy provided id is returned as is; otherwise `auto` is the
outcome of the rest of the function (environment variable, then API
auto-detection, either of which may raise a `RuntimeError`). -/
def resolveUserId (provided : Option String) (auto : Except PyErr String) :
    Except PyErr String :=
  match provided with
  | some s => if s = "" then auto else .ok s
  | none => auto

/-- Uppercase a string (Python `str.upper`). -/
def strUpper (s : String) : String := String.map Char.toUpper s

/-- Python `str.strip`: drop leading and trailing whitespace (the blank
test of `_validate_required`, instagram_mcp_server.py line 414). -/
def pyStrip (s : String) : String :=
  ⟨((s.data.dropWhile Char.isWhitespace).reverse.dropWhile Char.isWhitespace).reverse⟩

/-- Inputs of `INSTAGRAM_CREATE_MEDIA_CONTAINER` that affect its result
envelope (the `graph_api_version` override only swaps an environment
variable around the API call and is absorbed into the `api` oracle). -/
structure CMCInputs where
  image_url : Option String
  video_url : Option String
  caption : Option String
  media_type : Option String
  content_type : Option String
  cover_url : Option String
  is_carousel_item : Option Bool
  ig_user_id : Option String

/-- The request parameters `INSTAGRAM_CREATE_MEDIA_CONTAINER` builds
(instagram_mcp_server.py lines 628-646), given the normalized media type:
only truthy values are included, in source order. -/
def cmcParams (inp : CMCInputs) (mt : Option String) : List (String × JVal) :=
  [("media_type", (mt.map JVal.str).getD .null)]
  ++ (match envToken inp.image_url with
      | some u => [("image_url", .str u)] | none => [])
  ++ (match envToken inp.video_url with
      | some u => [("video_url", .str u)] | none => [])
  ++ (match envToken inp.content_type with
      | some c => [("content_type", .str c)] | none => [])
  ++ (match envToken inp.cover_url with
      | some c => [("cover_url", .str c)] | none => [])
  ++ (if inp.is_carousel_item = some true then [("is_carousel_item", .bool true)] else [])
  ++ (match envToken inp.caption with
      | some c => [("caption", .str c)] | none => [])

/-- `INSTAGRAM_CREATE_MEDIA_CONTAINER` (instagram_mcp_server.py lines
590-673).  `auto` is the user-id auto-detection outcome; `api params` the
`POST {ig_user_id}/media` outcome.  Every exception raised inside the
body is converted at the tool boundary into the failure envelope. -/
def createMediaContainer (inp : CMCInputs) (auto : Except PyErr String)
    (api : List (String × JVal) → Except PyErr JVal) : Envelope :=
  let fail := fun (m : String) => failEnv ("Failed to create media container: " ++ m)
  match resolveUserId inp.ig_user_id auto with
  | .error e => fail e.msg
  | .ok _ =>
    if !(optTruthy inp.image_url || optTruthy inp.video_url) then
      fail "Either image_url or video_url must be provided"
    else
      let normalized : Except String (Option String) :=
        match envToken inp.media_type with
        | none =>
          .ok (if optTruthy inp.video_url then some "VIDEO"
            else if optTruthy inp.image_url then some "IMAGE"
            else none)
        | some m =>
          let mu := strUpper m
          if !(mu = "IMAGE" || mu = "VIDEO") then
            .error ("media_type must be 'IMAGE' or 'VIDEO', not '" ++ mu ++
              "'. For Reels, use media_type='VIDEO' with is_reel=True.")
          else .ok (some mu)
      match normalized with
      | .error m => fail m
      | .ok mt =>
        if mt = some "IMAGE" && !(optTruthy inp.image_url) then
          fail "media_type='IMAGE' requires image_url"
        else if mt = some "VIDEO" && !(optTruthy inp.video_url) then
          fail "media_type='VIDEO' requires video_url"
        else
          match api (cmcParams inp mt) with
          | .ok r => okEnv r
          | .error e => fail e.msg

/-- `INSTAGRAM_GET_POST_STATUS` (instagram_mcp_server.py lines 863-908).
A blank `creation_id` makes `_validate_required` raise; a `Timeout` from
the API gets its own message; any other exception is checked for the word
"timeout" and prefixed. -/
def getPostStatus (creation_id : String)
    (api : Except PyErr JVal) : Envelope :=
  if pyStrip creation_id = "" then
    failEnv "Failed to get post status: Missing required parameter(s): creation_id"
  else
    match api with
    | .ok r => okEnv r
    | .error (.timeout m) =>
      failEnv ("Request timed out while checking post status. The API may be slow. Try again in a few moments. Error: " ++ m)
    | .error (.exc m) =>
      let m' := if strContainsLower m "timeout" then
          "Request timed out. The API may be slow. Try again in a few moments. " ++ m
        else m
      failEnv ("Failed to get post status: " ++ m')

/-- The page info `_get_page_for_ig_account` hands to the conversation
tools: the two entries of the returned dictionary, either possibly
Python `None`. -/
structure PageInfo where
  page_id : Option String
  page_access_token : Option String
deriving DecidableEq, Repr

/-- The exception post-processing of `INSTAGRAM_LIST_ALL_CONVERSATIONS`
(instagram_mcp_server.py lines 2424-2438): permission/access errors and
page errors are augmented with remediation hints. -/
def listConvErrMsg (m : String) : String :=
  let m' :=
    if strContainsLower m "permission" || strContainsLower m "access" then
      m ++ " Ensure your access token has 'pages_messaging' permission and you're using a Page Access Token."
    else if strContainsLower m "page" then
      m ++ " Make sure your Instagram account is connected to a Facebook Page and you have a valid Page Access Token."
    else m
  "Failed to list conversations: " ++ m'

/-- The failure envelope of `INSTAGRAM_LIST_ALL_CONVERSATIONS`:
`{"data": [], "paging": {}, "error": …, "successful": False}`. -/
def listConvFailEnv (m : String) : Envelope :=
  ⟨.arr [], some (.obj []), none, listConvErrMsg m, false⟩

/-- `INSTAGRAM_LIST_ALL_CONVERSATIONS` (instagram_mcp_server.py lines
2319-2438).  `auto` is the user-id resolution outcome; `pageInfo` the
`_get_page_for_ig_account` result; `api` the conversations request
outcome (the token environment juggling around it only affects which
token the request uses and is absorbed into the oracle).  Note the
empty-conversations branch: it returns `successful=True` together with a
non-empty informational `error` string. -/
def listAllConversations (ig_user_id : Option String)
    (auto : Except PyErr String) (pageInfo : PageInfo)
    (api : Except PyErr JVal) : Envelope :=
  match resolveUserId ig_user_id auto with
  | .error e => listConvFailEnv e.msg
  | .ok _ =>
    if !(optTruthy pageInfo.page_id) then
      listConvFailEnv "Could not find Facebook Page ID. Connect your Instagram account to a Facebook Page or set FACEBOOK_PAGE_ID environment variable."
    else if !(optTruthy pageInfo.page_access_token) then
      listConvFailEnv "Page Access Token is required for conversations API. Run: uv run instagram-mcp/get_page_token.py to get it automatically, or set INSTAGRAM_PAGE_ACCESS_TOKEN environment variable."
    else
      match api with
      | .error e => listConvFailEnv e.msg
      | .ok result =>
        let convData := (result.get "data").getD (.arr [])
        let paging := (result.get "paging").getD (.obj [])
        if convData.falsy then
          { data := .arr [], paging := some paging, message := none,
            error := "No conversations found. This could mean: 1) You have no active DM conversations, 2) The conversations API requires 'pages_messaging' permission, 3) You need to use a Page Access Token (not User Access Token). Ensure your access token has the correct permissions.",
            successful := true }
        else
          { data := convData, paging := some paging, message := none,
            error := "", successful := true }

/-- `INSTAGRAM_GET_IG_USER_LIVE_MEDIA` (instagram_mcp_server.py lines
1509-1556).  When the live-media listing succeeds but its `data` array is
empty, the tool adds a fifth `message` key to the envelope. -/
def getIgUserLiveMedia (ig_user_id : Option String)
    (auto : Except PyErr String) (api : Except PyErr JVal) : Envelope :=
  match resolveUserId ig_user_id auto with
  | .error e => failEnv ("Failed to get live media: " ++ e.msg)
  | .ok _ =>
    match api with
    | .error e => failEnv ("Failed to get live media: " ++ e.msg)
    | .ok result =>
      let live := (result.get "data").getD (.arr [])
      if live.falsy then
        { data := result, paging := none,
          message := some "No active live broadcast found. The account is not currently live streaming.",
          error := "", successful := true }
      else okEnv result

/-- The scripted environment a poller runs against: the outcome and
wall-clock duration (seconds) of the i-th status request, and the outcome
of the publish request.  A status outcome carries the `status_code` field
of the response (`none` when the key is absent). -/
structure PollEnv where
  status : Nat → Except PyErr (Option String)
  statusDur : Nat → Nat
  publish : Except PyErr JVal

/-- Observable trace of one poller run: its envelope, the number of
status requests issued, and the number of publish requests issued. -/
structure PollTrace where
  env : Envelope
  statusCalls : Nat
  publishCalls : Nat

/-- The status loop of `INSTAGRAM_CREATE_POST` (instagram_mcp_server.py
lines 928-956), by remaining attempts: returns the number of status calls
issued and, when the loop ends the tool early (an `ERROR` status or a
raised exception, the latter reaching the tool's generic handler), the
resulting envelope.  `none` means control proceeds to the publish step —
also after exhausting all attempts, which this optimistic poller treats
like a break. -/
def cpLoop (pe : PollEnv) : Nat → Nat → Nat × Option Envelope
  | 0, _ => (0, none)
  | fuel + 1, i =>
    match pe.status i with
    | .error e => (1, some (failEnv ("Failed to create post: " ++ e.msg)))
    | .ok sc =>
      if sc = some "FINISHED" then (1, none)
      else if sc = some "ERROR" then
        (1, some (failEnv "Media container processing failed"))
      else
        let (n, r) := cpLoop pe fuel (i + 1)
        (n + 1, r)

/-- `INSTAGRAM_CREATE_POST` (instagram_mcp_server.py lines 914-987): the
fixed-attempts (15) poller followed by the publish call; the sleeps
between attempts affect nothing observable here.  `auto` is the user-id
resolution outcome. -/
def createPost (creation_id : String) (ig_user_id : Option String)
    (auto : Except PyErr String) (pe : PollEnv) : PollTrace :=
  if pyStrip creation_id = "" then
    ⟨failEnv "Failed to create post: Missing required parameter(s): creation_id", 0, 0⟩
  else
    match resolveUserId ig_user_id auto with
    | .error e => ⟨failEnv ("Failed to create post: " ++ e.msg), 0, 0⟩
    | .ok _ =>
      match cpLoop pe 15 0 with
      | (n, some envl) => ⟨envl, n, 0⟩
      | (n, none) =>
        match pe.publish with
        | .ok r => ⟨okEnv r, n, 1⟩
        | .error e => ⟨failEnv ("Failed to create post: " ++ e.msg), n, 1⟩

/-- Python `o or d` on an optional integer parameter (`max_wait_seconds
or 45`): `0` and `None` both fall back to the default.  Negative values
never occur in the modelled scenarios and are out of scope of the `Nat`
embedding. -/
def orDefNat (o : Option Nat) (d : Nat) : Nat :=
  match o with
  | some n => if n = 0 then d else n
  | none => d

/-- Outcome of the wall-clock status loop: an early-returned envelope (a
budget timeout or an `ERROR` status), a raised exception, or normal
continuation to the final check (after a `FINISHED` status or after
exhausting the attempts). -/
inductive WcOut where
  | early (envl : Envelope)
  | raised (e : PyErr)
  | proceed

/-- The timeout envelope of the wall-clock poller (instagram_mcp_server.py
lines 1016-1021). -/
def wcTimeoutEnv (maxWait : Nat) : Envelope :=
  failEnv ("Media container did not finish processing within " ++ toString maxWait ++
    " seconds. Status may still be IN_PROGRESS. Try again later or check status manually.")

/-- The status loop of `INSTAGRAM_POST_IG_USER_MEDIA_PUBLISH`
(instagram_mcp_server.py lines 1012-1050), by remaining attempts:
arguments are the status-call index, and the clock (elapsed seconds since
`start_time`).  Each iteration first checks the elapsed budget, then
issues a status call (advancing the clock by its duration), and sleeps
`pollInt` seconds on every attempt but the last.  Returns the number of
status calls issued and how the loop ended. -/
def wcLoop (pe : PollEnv) (maxWait pollInt : Nat) :
    Nat → Nat → Nat → Nat × WcOut
  | 0, _, _ => (0, .proceed)
  | fuel + 1, i, c =>
    if c ≥ maxWait then (0, .early (wcTimeoutEnv maxWait))
    else
      match pe.status i with
      | .error e => (1, .raised e)
      | .ok sc =>
        let c1 := c + pe.statusDur i
        if sc = some "FINISHED" then (1, .proceed)
        else if sc = some "ERROR" then
          (1, .early (failEnv "Media container processing failed with ERROR status"))
        else
          let c2 := if fuel = 0 then c1 else c1 + pollInt
          let (n, r) := wcLoop pe maxWait pollInt fuel (i + 1) c2
          (n + 1, r)

/-- The boundary exception handlers of
`INSTAGRAM_POST_IG_USER_MEDIA_PUBLISH` (instagram_mcp_server.py lines
1098-1112): a `requests` `Timeout` gets its own message, any other
exception is checked for the word "timeout" and prefixed. -/
def wcBoundary (e : PyErr) : Envelope :=
  match e with
  | .timeout m =>
    failEnv ("Request timed out during media publishing. The polling may have taken too long. Try using GET_POST_STATUS to check status manually, then publish when ready. Error: " ++ m)
  | .exc m =>
    let m' := if strContainsLower m "timeout" then
        "Request timed out. The polling may have taken too long. Try reducing max_wait_seconds or use GET_POST_STATUS to check status manually. " ++ m
      else m
    failEnv ("Failed to publish media: " ++ m')

/-- Python `f"{status}"` on an optional status code (`None` prints as
`"None"`). -/
def scStr : Option String → String
  | some s => s
  | none => "None"

/-- `INSTAGRAM_POST_IG_USER_MEDIA_PUBLISH` (instagram_mcp_server.py lines
993-1112): the wall-clock-bounded poller.  The caller-supplied
`max_wait_seconds` is capped at 45; `max_retries = max_wait //
poll_interval`.  After the loop a final confirming status request is
always issued, and publish happens only on a confirmed `FINISHED`. -/
def igUserMediaPublish (creation_id : String) (ig_user_id : Option String)
    (auto : Except PyErr String) (mws pis : Option Nat) (pe : PollEnv) :
    PollTrace :=
  if pyStrip creation_id = "" then
    ⟨wcBoundary (.exc "Missing required parameter(s): creation_id"), 0, 0⟩
  else
    match resolveUserId ig_user_id auto with
    | .error e => ⟨wcBoundary e, 0, 0⟩
    | .ok _ =>
      let maxWait := min (orDefNat mws 45) 45
      let pollInt := orDefNat pis 3
      let maxRetries := if pollInt > 0 then maxWait / pollInt else 15
      match wcLoop pe maxWait pollInt maxRetries 0 0 with
      | (n, .early envl) => ⟨envl, n, 0⟩
      | (n, .raised e) => ⟨wcBoundary e, n, 0⟩
      | (n, .proceed) =>
        match pe.status n with
        | .error e => ⟨wcBoundary e, n + 1, 0⟩
        | .ok sc =>
          if sc ≠ some "FINISHED" then
            ⟨failEnv ("Media container status is '" ++ scStr sc ++
              "', not FINISHED. Processing may still be in progress."), n + 1, 0⟩
          else
            match pe.publish with
            | .ok r => ⟨okEnv r, n + 1, 1⟩
            | .error e => ⟨wcBoundary e, n + 1, 1⟩

/-- Projection of an exchange outcome onto the returned token dictionary
(`none` when the exchange raised). -/
def exchangeTD : Except String (TokenData × Store) → Option TokenData
  | .ok r => some r.1
  | .error _ => none

/-- The documented envelope shape for the tools that return the
three-key envelope: no `paging` key, no extra `message` key, and
`successful` true exactly when `error` is the empty string. -/
def envelopeInv (env : Envelope) : Prop :=
  env.paging = none ∧ env.message = none ∧
    env.successful = decide (env.error = "")

theorem strPrefixNeEmpty (s t : String) (h : s.data ≠ []) : s ++ t ≠ "" := by
  obtain ⟨sd⟩ := s
  obtain ⟨td⟩ := t
  intro he
  have hd : sd ++ td = ([] : List Char) := congrArg String.data he
  exact h (List.append_eq_nil.mp hd).1

theorem serverSaveTokens_apply (existing patch : Store) (now : Int) (k : String) :
    serverSaveTokens existing patch now k =
      if k = "access_token_saved_at" ∧ (patch "access_token").isSome then some (.num now)
      else Store.update existing patch k := by
  unfold serverSaveTokens
  by_cases hat : (patch "access_token").isSome <;>
    by_cases hk : k = "access_token_saved_at" <;>
    simp [hat, hk]

theorem clientSaveTokens_apply (existing patch : Store) (now : Int) (k : String) :
    clientSaveTokens existing patch now k =
      if k = "access_token_saved_at" then some (.num now)
      else Store.update existing patch k := by
  unfold clientSaveTokens
  by_cases hk : k = "access_token_saved_at" <;> simp [hk]

/-- C10 (amended): the client `_load_tokens`, whose bare
`except Exception` covers every failure of its body, returns the empty
record without raising for every abnormal on-disk state — missing file,
unreadable file, invalid-UTF-8 bytes, or text that fails to parse as
JSON; the server `_load_tokens` returns the empty record without raising
for the missing, unreadable and unparseable-text states, but a file of
invalid UTF-8 bytes raises `UnicodeDecodeError` past its
`(json.JSONDecodeError, IOError)` clause. -/
theorem loadTokens_abnormal (parse : String → Option Store)
    (s : String) (h : parse s = none) :
    clientLoadTokens .missing parse = Store.empty ∧
    clientLoadTokens .unreadable parse = Store.empty ∧
    clientLoadTokens .undecodable parse = Store.empty ∧
    clientLoadTokens (.text s) parse = Store.empty ∧
    serverLoadTokens .missing parse = .ok Store.empty ∧
    serverLoadTokens .unreadable parse = .ok Store.empty ∧
    serverLoadTokens (.text s) parse = .ok Store.empty ∧
    serverLoadTokens .undecodable parse = .error .unicodeDecodeError := by
  refine ⟨rfl, rfl, rfl, ?_, rfl, rfl, ?_, rfl⟩
  · simp [clientLoadTokens, h]
  · simp [serverLoadTokens, h]

theorem loadTokens_abnormal_witness :
    clientLoadTokens (.text "corrupt") (fun _ => none) = Store.empty ∧
    serverLoadTokens (.text "corrupt") (fun _ => none) = .ok Store.empty :=
  ⟨(loadTokens_abnormal (fun _ => none) "corrupt" rfl).2.2.2.1,
   (loadTokens_abnormal (fun _ => none) "corrupt" rfl).2.2.2.2.2.2.1⟩

/-- C10 counterexample: on a token file holding invalid UTF-8 bytes —
an on-disk state with malformed content — the server `_load_tokens`
raises `UnicodeDecodeError` to the caller instead of returning an empty
record, because that exception is neither a `json.JSONDecodeError` nor an
`IOError`, the only classes its `except` clause catches. -/
theorem serverLoadTokens_raises_on_invalid_utf8 :
    serverLoadTokens .undecodable (fun _ => none) = .error .unicodeDecodeError ∧
    serverLoadTokens .undecodable (fun _ => none) ≠ .ok Store.empty := by
  refine ⟨rfl, fun h => ?_⟩
  exact Except.noConfusion h

/-- C2 (amended): both `_save_tokens` implementations overlay the patch
onto the existing record field by field and retain every field not
present in the patch; the server implementation stamps
`access_token_saved_at` exactly when the patch contains `access_token`,
while the client implementation stamps it on every save. -/
theorem saveTokens_merge_and_stamp (existing patch : Store) (now : Int) (k : String) :
    (k ≠ "access_token_saved_at" → patch k = none →
      serverSaveTokens existing patch now k = existing k ∧
      clientSaveTokens existing patch now k = existing k) ∧
    (∀ v, k ≠ "access_token_saved_at" → patch k = some v →
      serverSaveTokens existing patch now k = some v ∧
      clientSaveTokens existing patch now k = some v) ∧
    ((patch "access_token").isSome = true →
      serverSaveTokens existing patch now "access_token_saved_at" = some (.num now)) ∧
    (patch "access_token" = none → patch "access_token_saved_at" = none →
      serverSaveTokens existing patch now "access_token_saved_at" =
        existing "access_token_saved_at") ∧
    clientSaveTokens existing patch now "access_token_saved_at" = some (.num now) := by
  refine ⟨?_, ?_, ?_, ?_, ?_⟩
  · intro hk hp
    rw [serverSaveTokens_apply, clientSaveTokens_apply]
    simp [hk, Store.update, hp]
  · intro v hk hp
    rw [serverSaveTokens_apply, clientSaveTokens_apply]
    simp [hk, Store.update, hp]
  · intro hat
    rw [serverSaveTokens_apply]
    simp [hat]
  · intro hat hsv
    rw [serverSaveTokens_apply]
    simp [hat, Store.update, hsv]
  · rw [clientSaveTokens_apply]
    simp

theorem saveTokens_merge_and_stamp_witness :
    serverSaveTokens
      (Store.ofList [("access_token", .str "A"), ("refresh_token", .str "R"),
        ("access_token_saved_at", .num 1000)])
      (Store.ofList [("page_access_token", .str "X")]) 2000 "access_token" = some (.str "A") ∧
    serverSaveTokens
      (Store.ofList [("access_token", .str "A"), ("refresh_token", .str "R"),
        ("access_token_saved_at", .num 1000)])
      (Store.ofList [("page_access_token", .str "X")]) 2000 "refresh_token" = some (.str "R") ∧
    serverSaveTokens
      (Store.ofList [("access_token", .str "A"), ("refresh_token", .str "R"),
        ("access_token_saved_at", .num 1000)])
      (Store.ofList [("page_access_token", .str "X")]) 2000 "page_access_token" = some (.str "X") ∧
    serverSaveTokens
      (Store.ofList [("access_token", .str "A"), ("refresh_token", .str "R"),
        ("access_token_saved_at", .num 1000)])
      (Store.ofList [("page_access_token", .str "X")]) 2000 "access_token_saved_at" = some (.num 1000) := by
  refine ⟨?_, ?_, ?_, ?_⟩
  · exact ((saveTokens_merge_and_stamp _ _ 2000 "access_token").1
      (by decide) (by decide)).1.trans (by decide)
  · exact ((saveTokens_merge_and_stamp _ _ 2000 "refresh_token").1
      (by decide) (by decide)).1.trans (by decide)
  · exact ((saveTokens_merge_and_stamp _ _ 2000 "page_access_token").2.1
      (.str "X") (by decide) (by decide)).1
  · exact (saveTokens_merge_and_stamp _ _ 2000 "k").2.2.2.1 (by decide) (by decide) |>.trans (by decide)

/-- C2 counterexample: the client `_save_tokens` stamps
`access_token_saved_at` even when the patch does not contain
`access_token` — saving only `page_access_token` over a store whose
`saved_at` is 1000 rewrites it to the current time 2000, contradicting
the claim that `saved_at` is updated when and only when the partial
contains `access_token`. -/
theorem clientSaveTokens_stamps_without_access_token :
    (Store.ofList [("page_access_token", .str "X")]) "access_token" = none ∧
    (Store.ofList [("access_token", .str "A"), ("refresh_token", .str "R"),
      ("access_token_saved_at", .num 1000)]) "access_token_saved_at" = some (.num 1000) ∧
    clientSaveTokens
      (Store.ofList [("access_token", .str "A"), ("refresh_token", .str "R"),
        ("access_token_saved_at", .num 1000)])
      (Store.ofList [("page_access_token", .str "X")]) 2000 "access_token_saved_at"
      = some (.num 2000) := by
  refine ⟨by decide, by decide, by decide⟩

/-- C3 (amended): the client-side expiry judge implements exactly the
claimed boundary — expired iff `now ≥ saved_at + expires_in − 300` —
whenever both fields are present with non-zero values, and judges a token
non-expiring when either field is missing; the server-side judge instead
uses a one-day buffer with a strict comparison, expired iff
`saved_at + expires_in − now < 86400`, treating a token with either key
absent as non-expiring. -/
theorem isExpired_boundary (e t now : Int) :
    (e ≠ 0 → t ≠ 0 →
      clientIsExpired (some e) (some t) now = decide (now ≥ t + e - 300)) ∧
    clientIsExpired none (some t) now = false ∧
    clientIsExpired (some e) none now = false ∧
    clientIsExpired none none now = false ∧
    serverIsExpired (some e) (some t) now = decide (t + e - now < 86400) ∧
    serverIsExpired none (some t) now = false ∧
    serverIsExpired (some e) none now = false ∧
    serverIsExpired none none now = false := by
  refine ⟨?_, rfl, rfl, rfl, rfl, rfl, rfl, rfl⟩
  intro he ht
  simp [clientIsExpired, he, ht]

theorem isExpired_boundary_witness :
    clientIsExpired (some 3600) (some 1000) 4300 = true ∧
    clientIsExpired (some 3600) (some 1000) 4299 = false := by
  constructor
  · rw [(isExpired_boundary 3600 1000 4300).1 (by decide) (by decide)]; decide
  · rw [(isExpired_boundary 3600 1000 4299).1 (by decide) (by decide)]; decide

/-- C3 counterexample: the server-side expiry judge contradicts the
claimed 300-second-buffer boundary.  With `saved_at = 0`,
`expires_in = 100000`, `now = 20000`, the claimed formula
`now ≥ saved_at + expires_in − 300` is false (20000 < 99700), yet the
server judge reports the token expired (its buffer is 86400 seconds). -/
theorem serverIsExpired_breaks_300s_boundary :
    serverIsExpired (some 100000) (some 0) 20000 = true ∧
    ¬ ((20000 : Int) ≥ 0 + 100000 - 300) := by
  constructor
  · decide
  · decide

theorem find?_first_index {α : Type} (p : α → Bool) (l : List α) :
    ∀ (i : Nat) (hi : i < l.length),
      p (l.get ⟨i, hi⟩) = true →
      (∀ (j : Nat) (hj : j < l.length), j < i → p (l.get ⟨j, hj⟩) = false) →
      l.find? p = some (l.get ⟨i, hi⟩) := by
  induction l with
  | nil => intro i hi; exact absurd hi (by simp)
  | cons a tl ih =>
    intro i hi hp hmin
    cases i with
    | zero =>
      simp only [List.get] at hp
      simp [List.find?, hp]
    | succ n =>
      have ha : p a = false := hmin 0 (by simp) (Nat.succ_pos _)
      have ht : tl.find? p = some (tl.get ⟨n, Nat.lt_of_succ_lt_succ hi⟩) := by
        refine ih n (Nat.lt_of_succ_lt_succ hi) hp ?_
        intro j hj hjn
        exact hmin (j + 1) (Nat.succ_lt_succ hj) (Nat.succ_lt_succ hjn)
      simp [List.find?, ha, ht]

/-- C9: the page-identity resolver returns `None` without raising when
the listing request fails, when the response has no `data` key, or when
the page list is empty; it returns the first page having a connected
Instagram business account, as the triple of that page's id,
access_token and connected instagram id; and when no page of a non-empty
list is connected it returns the first page with a null
`instagram_user_id`. -/
theorem pageLookup_selection :
    (∀ m : String, getPageAccessTokenFromUserToken (.error m) = none) ∧
    getPageAccessTokenFromUserToken (.ok none) = none ∧
    getPageAccessTokenFromUserToken (.ok (some [])) = none ∧
    (∀ (pages : List FBPage) (i : Nat) (hi : i < pages.length) (igid : String),
      (pages.get ⟨i, hi⟩).instagram_business_account = some (some igid) →
      igid ≠ "" →
      (∀ (j : Nat) (hj : j < pages.length), j < i →
        (pages.get ⟨j, hj⟩).connected = false) →
      getPageAccessTokenFromUserToken (.ok (some pages)) =
        some ⟨(pages.get ⟨i, hi⟩).id, (pages.get ⟨i, hi⟩).access_token, some igid⟩) ∧
    (∀ (p0 : FBPage) (rest : List FBPage),
      (∀ x ∈ p0 :: rest, x.connected = false) →
      getPageAccessTokenFromUserToken (.ok (some (p0 :: rest))) =
        some ⟨p0.id, p0.access_token, none⟩) := by
  refine ⟨fun m => rfl, rfl, rfl, ?_, ?_⟩
  · intro pages i hi igid hig hne hmin
    rw [List.get_eq_getElem] at hig
    have hc : (pages.get ⟨i, hi⟩).connected = true := by
      simp [FBPage.connected, List.get_eq_getElem, hig, hne]
    have hfind := find?_first_index FBPage.connected pages i hi hc hmin
    have hnonempty : pages.isEmpty = false := by
      cases pages with
      | nil => exact absurd hi (by simp)
      | cons _ _ => rfl
    simp [getPageAccessTokenFromUserToken, hnonempty, hfind, List.get_eq_getElem, hig]
  · intro p0 rest hall
    have hfind : (p0 :: rest).find? FBPage.connected = none := by
      rw [List.find?_eq_none]
      intro x hx
      simp [hall x hx]
    simp [getPageAccessTokenFromUserToken, hfind]

theorem pageLookup_selection_witness :
    getPageAccessTokenFromUserToken (.ok (some
      [⟨some "P1", some "T1", none⟩,
       ⟨some "P2", some "T2", some (some "IG2")⟩,
       ⟨some "P3", some "T3", some (some "IG3")⟩])) =
      some ⟨some "P2", some "T2", some "IG2"⟩ := by
  refine (pageLookup_selection.2.2.2.1
    [⟨some "P1", some "T1", none⟩,
     ⟨some "P2", some "T2", some (some "IG2")⟩,
     ⟨some "P3", some "T3", some (some "IG3")⟩]
    1 (by decide) "IG2" rfl (by decide) ?_)
  intro j hj hj1
  interval_cases j
  · rfl

/-- C8: when a refresh response carries an `access_token` (and an
`expires_in`) but omits `refresh_token`, both refresh implementations
return the new token and leave the store's `refresh_token` field exactly
as it was, while persisting the new `access_token` and `expires_in`. -/
theorem refresh_preserves_refresh_token
    (cid csec : Option String) (st : Store) (http : Val → Option TokenData)
    (pl : String → Option PageTriple) (rt : Val) (now : Int)
    (a : String) (ei : Int) (td : TokenData)
    (hcid : optTruthy cid = true) (hcsec : optTruthy csec = true)
    (hhttp : http rt = some td)
    (hat : td.access_token = some a)
    (hrt : td.refresh_token = none)
    (hei : td.expires_in = some ei) :
    ((serverRefreshOauthToken cid csec st http pl rt now).1 = some a ∧
     (serverRefreshOauthToken cid csec st http pl rt now).2 "refresh_token" = st "refresh_token" ∧
     (serverRefreshOauthToken cid csec st http pl rt now).2 "access_token" = some (.str a) ∧
     (serverRefreshOauthToken cid csec st http pl rt now).2 "expires_in" = some (.num ei)) ∧
    ((clientRefreshToken true st http rt now).1 = some a ∧
     (clientRefreshToken true st http rt now).2 "refresh_token" = st "refresh_token" ∧
     (clientRefreshToken true st http rt now).2 "access_token" = some (.str a) ∧
     (clientRefreshToken true st http rt now).2 "expires_in" = some (.num ei)) := by
  have hgt : ∀ r : Option Val,
      (match (match r with
        | some v => if v.truthy then some v else none
        | none => none) with
       | some v => some v
       | none => r) = r := by
    intro r
    cases r with
    | none => rfl
    | some v => by_cases hv : v.truthy <;> simp [hv]
  have hsrv : serverRefreshOauthToken cid csec st http pl rt now =
      (some a, serverSaveTokens st
        (fun k =>
          if k = "access_token" then some (.str a)
          else if k = "expires_in" then some (.num ei)
          else if k = "refresh_token" then st.getTruthy "refresh_token"
          else if k = "page_access_token" then
            (pl a).map (fun p => (p.page_access_token.map Val.str).getD .null)
          else if k = "facebook_page_id" then
            (pl a).map (fun p => (p.page_id.map Val.str).getD .null)
          else none) now) := by
    unfold serverRefreshOauthToken
    rw [hhttp]
    simp [hcid, hcsec, hat, hrt, hei]
  have hcli : clientRefreshToken true st http rt now =
      (some a, clientSaveTokens st
        (fun k =>
          if k = "access_token" then some (.str a)
          else if k = "expires_in" then some (.num ei)
          else if k = "refresh_token" then st.getTruthy "refresh_token"
          else none) now) := by
    unfold clientRefreshToken
    rw [hhttp]
    simp [hat, hei]
  rw [hsrv, hcli]
  refine ⟨⟨rfl, ?_, ?_, ?_⟩, ⟨rfl, ?_, ?_, ?_⟩⟩ <;>
    simp [serverSaveTokens_apply, clientSaveTokens_apply, Store.update,
      Store.getTruthy, hgt]

theorem refresh_preserves_refresh_token_witness :
    (serverRefreshOauthToken (some "cid") (some "sec")
      (Store.ofList [("access_token", .str "A"), ("refresh_token", .str "R")])
      (fun _ => some ⟨some "B", some 5184000, none⟩) (fun _ => none)
      (.str "R") 777).2 "refresh_token" = some (.str "R") ∧
    (clientRefreshToken true
      (Store.ofList [("access_token", .str "A"), ("refresh_token", .str "R")])
      (fun _ => some ⟨some "B", some 5184000, none⟩)
      (.str "R") 777).2 "refresh_token" = some (.str "R") := by
  have h := refresh_preserves_refresh_token (some "cid") (some "sec")
    (Store.ofList [("access_token", .str "A"), ("refresh_token", .str "R")])
    (fun _ => some ⟨some "B", some 5184000, none⟩) (fun _ => none)
    (.str "R") 777 "B" 5184000 ⟨some "B", some 5184000, none⟩
    rfl rfl rfl rfl rfl rfl
  exact ⟨h.1.2.1.trans (by decide), h.2.2.1.trans (by decide)⟩

/-- C7 (amended): whenever the long-lived exchange call fails, the code
exchange still succeeds as a whole and returns a token dictionary holding
the short-lived `access_token` from the first call, with `expires_in`
set to the first response's own `expires_in` when that was present and
to the 3600-second default only otherwise. -/
theorem exchangeCode_short_lived_fallback
    (cid csec : Option String) (st : Store) (td0 : TokenData)
    (pl : String → Option PageTriple) (now : Int) (s : String)
    (hcid : optTruthy cid = true) (hcsec : optTruthy csec = true)
    (hat : td0.access_token = some s) (hne : s ≠ "") :
    exchangeTD (exchangeOauth2Code cid csec st (.ok td0) (fun _ => none) pl now) =
      some { td0 with expires_in := some (td0.expires_in.getD 3600) } := by
  obtain ⟨at0, ei0, rt0⟩ := td0
  have hat' : at0 = some s := hat
  subst hat'
  unfold exchangeOauth2Code exchangeTD
  simp only [hcid, hcsec, Bool.and_self, Bool.not_true, Bool.false_eq_true,
    if_false]
  cases ei0 with
  | none => simp [hne]
  | some x => simp [hne]

theorem exchangeCode_short_lived_fallback_witness :
    exchangeTD (exchangeOauth2Code (some "cid") (some "sec") Store.empty
      (.ok ⟨some "S", none, none⟩) (fun _ => none) (fun _ => none) 0) =
      some ⟨some "S", some 3600, none⟩ := by
  have h := exchangeCode_short_lived_fallback (some "cid") (some "sec")
    Store.empty ⟨some "S", none, none⟩ (fun _ => none) 0 "S"
    rfl rfl rfl (by decide)
  exact h.trans (by decide)

/-- C7 counterexample: when the first (short-lived) response already
carries an `expires_in` (here 999) and the long-lived exchange fails, the
returned dictionary keeps 999 — not the 3600 the claim asserts — because
the fallback assigns 3600 only when `expires_in` is absent. -/
theorem exchangeCode_keeps_first_expiry :
    exchangeTD (exchangeOauth2Code (some "cid") (some "sec") Store.empty
      (.ok ⟨some "S", some 999, none⟩) (fun _ => none) (fun _ => none) 0) =
      some ⟨some "S", some 999, none⟩ ∧ (999 : Int) ≠ 3600 := by
  constructor
  · decide
  · decide

theorem envelopeInv_okEnv (r : JVal) : envelopeInv (okEnv r) :=
  ⟨rfl, rfl, rfl⟩

theorem envelopeInv_failEnv (m : String) (h : ¬ (m = "")) :
    envelopeInv (failEnv m) :=
  ⟨rfl, rfl, (decide_eq_false h).symm⟩

/-- C5 (amended): the cited tools `INSTAGRAM_CREATE_MEDIA_CONTAINER` and
`INSTAGRAM_GET_POST_STATUS` return, for every input and every oracle
outcome, exactly the documented three-key envelope with `successful=true`
iff `error` is empty (every failure is caught at the tool boundary and
converted into this shape, never raised); two tools deviate:
`INSTAGRAM_GET_IG_USER_LIVE_MEDIA` adds an undocumented fifth `message`
key on its no-live-broadcast path, and `INSTAGRAM_LIST_ALL_CONVERSATIONS`
returns `successful=true` with a non-empty informational `error` when the
conversation list is empty. -/
theorem toolEnvelope_invariant
    (inp : CMCInputs) (auto : Except PyErr String)
    (api : List (String × JVal) → Except PyErr JVal)
    (cid : String) (apiS : Except PyErr JVal) :
    envelopeInv (createMediaContainer inp auto api) ∧
    envelopeInv (getPostStatus cid apiS) ∧
    (getIgUserLiveMedia none (.ok "U") (.ok (.obj [("data", .arr [])]))).message =
      some "No active live broadcast found. The account is not currently live streaming." ∧
    (listAllConversations none (.ok "U") ⟨some "P", some "T"⟩
      (.ok (.obj [("data", .arr [])]))).successful = true := by
  refine ⟨?_, ?_, rfl, rfl⟩
  · simp only [createMediaContainer]
    repeat' split
    all_goals first
      | exact envelopeInv_okEnv _
      | (apply envelopeInv_failEnv
         first
          | decide
          | (apply strPrefixNeEmpty; decide))
  · simp only [getPostStatus]
    repeat' split
    all_goals first
      | exact envelopeInv_okEnv _
      | (apply envelopeInv_failEnv
         first
          | decide
          | (apply strPrefixNeEmpty; decide))

/-- C5 counterexample: on an empty conversation list,
`INSTAGRAM_LIST_ALL_CONVERSATIONS` returns an envelope with
`successful=true` and a non-empty `error` string, contradicting the
claimed implication `successful=true → error = ""`. -/
theorem listAllConversations_success_with_error :
    (listAllConversations none (.ok "U") ⟨some "P", some "T"⟩
      (.ok (.obj [("data", .arr [])]))).successful = true ∧
    (listAllConversations none (.ok "U") ⟨some "P", some "T"⟩
      (.ok (.obj [("data", .arr [])]))).error ≠ "" := by
  constructor
  · rfl
  · decide

/-- C6 (amended): for the scripted status sequence
`[IN_PROGRESS, IN_PROGRESS, FINISHED]` the fixed-attempts poller
(`INSTAGRAM_CREATE_POST`) issues exactly 3 status calls then exactly 1
publish call, while the wall-clock poller
(`INSTAGRAM_POST_IG_USER_MEDIA_PUBLISH`) issues those 3 polling status
calls plus one confirming status call — 4 in total — before its 1 publish
call; for `[ERROR]` each issues exactly 1 status call and 0 publish calls
and reports failure; and when every status response is `IN_PROGRESS` and
the wall-clock budget (45 s, with 20 s consumed per status call) runs
out, the wall-clock poller returns the timeout failure — distinct from
its `ERROR`-status failure — with 0 publish calls. -/
theorem poller_terminal_dispatch :
    (createPost "C" none (.ok "U")
      ⟨fun i => if i < 2 then .ok (some "IN_PROGRESS") else .ok (some "FINISHED"),
       fun _ => 0, .ok (.obj [("id", .str "M")])⟩).statusCalls = 3 ∧
    (createPost "C" none (.ok "U")
      ⟨fun i => if i < 2 then .ok (some "IN_PROGRESS") else .ok (some "FINISHED"),
       fun _ => 0, .ok (.obj [("id", .str "M")])⟩).publishCalls = 1 ∧
    (createPost "C" none (.ok "U")
      ⟨fun i => if i < 2 then .ok (some "IN_PROGRESS") else .ok (some "FINISHED"),
       fun _ => 0, .ok (.obj [("id", .str "M")])⟩).env.successful = true ∧
    (createPost "C" none (.ok "U")
      ⟨fun _ => .ok (some "ERROR"), fun _ => 0,
       .ok (.obj [("id", .str "M")])⟩).statusCalls = 1 ∧
    (createPost "C" none (.ok "U")
      ⟨fun _ => .ok (some "ERROR"), fun _ => 0,
       .ok (.obj [("id", .str "M")])⟩).publishCalls = 0 ∧
    (createPost "C" none (.ok "U")
      ⟨fun _ => .ok (some "ERROR"), fun _ => 0,
       .ok (.obj [("id", .str "M")])⟩).env.error = "Media container processing failed" ∧
    (igUserMediaPublish "C" none (.ok "U") none none
      ⟨fun i => if i < 2 then .ok (some "IN_PROGRESS") else .ok (some "FINISHED"),
       fun _ => 0, .ok (.obj [("id", .str "M")])⟩).statusCalls = 4 ∧
    (igUserMediaPublish "C" none (.ok "U") none none
      ⟨fun i => if i < 2 then .ok (some "IN_PROGRESS") else .ok (some "FINISHED"),
       fun _ => 0, .ok (.obj [("id", .str "M")])⟩).publishCalls = 1 ∧
    (igUserMediaPublish "C" none (.ok "U") none none
      ⟨fun i => if i < 2 then .ok (some "IN_PROGRESS") else .ok (some "FINISHED"),
       fun _ => 0, .ok (.obj [("id", .str "M")])⟩).env.successful = true ∧
    (igUserMediaPublish "C" none (.ok "U") none none
      ⟨fun _ => .ok (some "ERROR"), fun _ => 0,
       .ok (.obj [("id", .str "M")])⟩).statusCalls = 1 ∧
    (igUserMediaPublish "C" none (.ok "U") none none
      ⟨fun _ => .ok (some "ERROR"), fun _ => 0,
       .ok (.obj [("id", .str "M")])⟩).publishCalls = 0 ∧
    (igUserMediaPublish "C" none (.ok "U") none none
      ⟨fun _ => .ok (some "ERROR"), fun _ => 0,
       .ok (.obj [("id", .str "M")])⟩).env.error =
      "Media container processing failed with ERROR status" ∧
    (igUserMediaPublish "C" none (.ok "U") none none
      ⟨fun _ => .ok (some "IN_PROGRESS"), fun _ => 20,
       .ok (.obj [("id", .str "M")])⟩).publishCalls = 0 ∧
    (igUserMediaPublish "C" none (.ok "U") none none
      ⟨fun _ => .ok (some "IN_PROGRESS"), fun _ => 20,
       .ok (.obj [("id", .str "M")])⟩).env.successful = false ∧
    (igUserMediaPublish "C" none (.ok "U") none none
      ⟨fun _ => .ok (some "IN_PROGRESS"), fun _ => 20,
       .ok (.obj [("id", .str "M")])⟩).env.error = (wcTimeoutEnv 45).error ∧
    (wcTimeoutEnv 45).error ≠ "Media container processing failed with ERROR status" := by
  repeat' constructor
  all_goals decide

/-- C6 counterexample: on the scripted sequence
`[IN_PROGRESS, IN_PROGRESS, FINISHED]` the wall-clock poller
(`INSTAGRAM_POST_IG_USER_MEDIA_PUBLISH`, the first cited symbol) issues 4
status calls — the 3 polling calls plus a final confirming call — not the
exactly 3 the claim asserts. -/
theorem wcPoller_issues_four_status_calls :
    (igUserMediaPublish "C" none (.ok "U") none none
      ⟨fun i => if i < 2 then .ok (some "IN_PROGRESS") else .ok (some "FINISHED"),
       fun _ => 0, .ok (.obj [("id", .str "M")])⟩).statusCalls = 4 ∧
    (4 : Nat) ≠ 3 := by
  constructor
  · decide
  · decide

/-- C4 (amended): when the store's token is judged expired, the client
resolver always attempts the refresh protocol with the stored
`refresh_token`, falling back to the stored access token itself; on a
refresh response carrying a non-empty token it returns that token with
the store updated and freshly stamped, on a failed refresh request (or
unconfigured OAuth2 client credentials) it returns the stale stored token
with the store untouched, and it never raises.  The server resolver
instead falls back to the legacy refresh-token environment variable —
never to the stored access token — and attempts no refresh at all when no
such credential exists, still returning the stale token. -/
theorem resolver_expired_refresh
    (e : ClientEnv) (a : Val)
    (hp : providerToken e.provider = none)
    (he : envToken e.envAccess = none)
    (ha : e.store.getTruthy "access_token" = some a)
    (hx : clientIsExpiredStore e.store e.now = true) :
    ((clientResolve e).attempts = [(e.store.getTruthy "refresh_token").getD a]) ∧
    (∀ td nt, e.cfgCreds = true →
      e.http ((e.store.getTruthy "refresh_token").getD a) = some td →
      td.access_token = some nt → ¬(nt = "") →
      (clientResolve e).result = .ok (.str nt) ∧
      (clientResolve e).store "access_token" = some (.str nt) ∧
      (clientResolve e).store "access_token_saved_at" = some (.num e.now)) ∧
    (e.http ((e.store.getTruthy "refresh_token").getD a) = none →
      (clientResolve e).result = .ok a ∧ (clientResolve e).store = e.store) ∧
    (e.cfgCreds = false →
      (clientResolve e).result = .ok a ∧ (clientResolve e).store = e.store) ∧
    (∀ (se : ServerEnv) (b : Val),
      envToken se.envAccess = none →
      se.store.getTruthy "access_token" = some b →
      serverIsExpiredStore se.store se.now = true →
      se.store.getTruthy "refresh_token" = none →
      envToken se.envOauthRefresh = none →
      (serverResolve se).result = .ok b ∧ (serverResolve se).attempts = []) := by
  have hres : clientResolve e =
      (match clientRefreshToken e.cfgCreds e.store e.http
          ((e.store.getTruthy "refresh_token").getD a) e.now with
        | (some nt, st') =>
          if nt = "" then ⟨.ok a, st', [(e.store.getTruthy "refresh_token").getD a]⟩
          else ⟨.ok (.str nt), st', [(e.store.getTruthy "refresh_token").getD a]⟩
        | (none, st') => ⟨.ok a, st', [(e.store.getTruthy "refresh_token").getD a]⟩) := by
    unfold clientResolve clientStorePath
    rw [hp, he, ha]
    simp only [hx, if_true]
    rcases clientRefreshToken e.cfgCreds e.store e.http
        ((e.store.getTruthy "refresh_token").getD a) e.now with ⟨o, st2⟩
    cases o with
    | none => rfl
    | some nt => by_cases hnt : nt = "" <;> simp [hnt]
  refine ⟨?_, ?_, ?_, ?_, ?_⟩
  · rw [hres]
    rcases clientRefreshToken e.cfgCreds e.store e.http
        ((e.store.getTruthy "refresh_token").getD a) e.now with ⟨o, st2⟩
    cases o with
    | none => rfl
    | some nt => by_cases hnt : nt = "" <;> simp [hnt]
  · intro td nt hcfg hhttp hat hnt
    have hr : clientRefreshToken e.cfgCreds e.store e.http
        ((e.store.getTruthy "refresh_token").getD a) e.now =
        (some nt, clientSaveTokens e.store
          (fun k =>
            if k = "access_token" then some (.str nt)
            else if k = "expires_in" then some (.num (td.expires_in.getD 5184000))
            else if k = "refresh_token" then e.store.getTruthy "refresh_token"
            else none) e.now) := by
      unfold clientRefreshToken
      rw [hcfg, hhttp]
      simp [hat]
    rw [hres, hr]
    dsimp only
    rw [if_neg hnt]
    refine ⟨rfl, ?_, ?_⟩ <;>
      simp [clientSaveTokens_apply, Store.update]
  · intro hhttp
    have hr : clientRefreshToken e.cfgCreds e.store e.http
        ((e.store.getTruthy "refresh_token").getD a) e.now = (none, e.store) := by
      unfold clientRefreshToken
      rw [hhttp]
      cases e.cfgCreds <;> rfl
    rw [hres, hr]
    exact ⟨rfl, rfl⟩
  · intro hcfg
    have hr : clientRefreshToken e.cfgCreds e.store e.http
        ((e.store.getTruthy "refresh_token").getD a) e.now = (none, e.store) := by
      unfold clientRefreshToken
      rw [hcfg]
      rfl
    rw [hres, hr]
    exact ⟨rfl, rfl⟩
  · intro se b h1 h2 h3 h4 h5
    unfold serverResolve
    rw [h1, h2, h4, h5]
    simp [h3]

theorem resolver_expired_refresh_witness :
    (clientResolve ⟨none, none, none,
      Store.ofList [("access_token", .str "A"), ("expires_in", .num 3600),
        ("access_token_saved_at", .num 1)], true,
      fun _ => some ⟨some "B", some 5184000, none⟩, 100000⟩).attempts = [.str "A"] ∧
    (clientResolve ⟨none, none, none,
      Store.ofList [("access_token", .str "A"), ("expires_in", .num 3600),
        ("access_token_saved_at", .num 1)], true,
      fun _ => some ⟨some "B", some 5184000, none⟩, 100000⟩).result = .ok (.str "B") ∧
    (clientResolve ⟨none, none, none,
      Store.ofList [("access_token", .str "A"), ("expires_in", .num 3600),
        ("access_token_saved_at", .num 1)], true,
      fun _ => some ⟨some "B", some 5184000, none⟩, 100000⟩).store "access_token"
      = some (.str "B") ∧
    (clientResolve ⟨none, none, none,
      Store.ofList [("access_token", .str "A"), ("expires_in", .num 3600),
        ("access_token_saved_at", .num 1)], true,
      fun _ => some ⟨some "B", some 5184000, none⟩, 100000⟩).store "access_token_saved_at"
      = some (.num 100000) := by
  have h := resolver_expired_refresh ⟨none, none, none,
    Store.ofList [("access_token", .str "A"), ("expires_in", .num 3600),
      ("access_token_saved_at", .num 1)], true,
    fun _ => some ⟨some "B", some 5184000, none⟩, 100000⟩ (.str "A")
    rfl rfl rfl (by decide)
  have h2 := h.2.1 ⟨some "B", some 5184000, none⟩ "B" rfl rfl rfl (by decide)
  exact ⟨h.1.trans (by decide), h2.1, h2.2.1, h2.2.2⟩

/-- C4 counterexample: the server resolver, with an expired stored token
`"A"`, no stored `refresh_token` and no environment refresh token, does
not attempt the refresh protocol at all (it never falls back to the
stored access token as exchange credential, although the refresh HTTP
oracle here would have succeeded) and simply returns the stale token. -/
theorem serverResolve_skips_refresh_without_credential :
    serverIsExpiredStore (Store.ofList [("access_token", .str "A"),
      ("expires_in", .num 1000), ("access_token_saved_at", .num 1)]) 100000 = true ∧
    (serverResolve ⟨none, none, none, some "cid", some "sec",
      Store.ofList [("access_token", .str "A"), ("expires_in", .num 1000),
        ("access_token_saved_at", .num 1)],
      fun _ => some ⟨some "B", some 5184000, none⟩, fun _ => none, 100000⟩).result
      = .ok (.str "A") ∧
    (serverResolve ⟨none, none, none, some "cid", some "sec",
      Store.ofList [("access_token", .str "A"), ("expires_in", .num 1000),
        ("access_token_saved_at", .num 1)],
      fun _ => some ⟨some "B", some 5184000, none⟩, fun _ => none, 100000⟩).attempts
      = [] := by
  refine ⟨by decide, rfl, rfl⟩

theorem clientStorePath_no_error (e : ClientEnv) (m : String) :
    (clientStorePath e).map (fun out => out.result) ≠ some (.error m) := by
  simp only [clientStorePath]
  repeat' split
  all_goals simp

/-- C1: the client credential resolver agrees, for every environment,
every store state and every oracle behaviour, with the specified
first-available-source resolution over the fixed precedence list
(provider callback — whose raising or falsy outcomes contribute nothing —
then direct environment token, then the store branch with refresh on
expiry, then legacy OAuth environment token); and it raises the
actionable error naming the setup step exactly when none of the four
sources yields a token. -/
theorem clientResolve_precedence (e : ClientEnv) :
    clientResolve e = specClientResolve e ∧
    ((clientResolve e).result = .error clientNoTokenMsg ↔
      providerToken e.provider = none ∧ envToken e.envAccess = none ∧
      clientStorePath e = none ∧ envToken e.envOauth = none) := by
  constructor
  · unfold clientResolve specClientResolve specSources
    cases hp : providerToken e.provider <;>
      cases ha : envToken e.envAccess <;>
      cases hs : clientStorePath e <;>
      cases ho : envToken e.envOauth <;>
      simp [List.findSome?, hp, ha, hs, ho]
  · unfold clientResolve
    cases hp : providerToken e.provider <;>
      cases ha : envToken e.envAccess <;>
      cases hs : clientStorePath e <;>
      cases ho : envToken e.envOauth
    all_goals
      have hne := clientStorePath_no_error e clientNoTokenMsg
    all_goals rw [hs] at hne
    all_goals simp_all
